import Mathlib

/-!
# Verification of the food-analysis backend core

Shallow embedding of `src/Backend/app.py`, `src/Backend/fdc_utils.py` and
`src/Backend/fda_daily_values.py`.  Python numbers are modelled as exact
rationals (`ℚ`); Python dicts as association lists in insertion order
(keys unique, first match wins, updates in place, new keys appended);
Python `None` and fallible conversions via `Option` / a dedicated value type.
-/

namespace FoodAnalysis

/-! ### Python string primitives

Modelled over the character list of a `String` (ASCII-adequate, which
covers every string the program manipulates), so that they evaluate by
kernel reduction. -/

/-- Python `s.lower()`. -/
def pyLower (s : String) : String := ⟨s.data.map Char.toLower⟩

/-- Python `s.strip()`: remove leading and trailing whitespace. -/
def pyStrip (s : String) : String :=
  ⟨((s.data.dropWhile Char.isWhitespace).reverse.dropWhile Char.isWhitespace).reverse⟩

/-- Python `s.startswith(pre)`. -/
def pyStartsWith (s pre : String) : Bool := pre.data.isPrefixOf s.data

/-- Python `s.endswith(suf)`. -/
def pyEndsWith (s suf : String) : Bool := suf.data.isSuffixOf s.data

/-- Python `s[:-n]` for `0 < n ≤ len(s)` (drop the last `n` characters),
as used with the unit suffixes. -/
def pyDropRight (s : String) (n : ℕ) : String := ⟨s.data.take (s.data.length - n)⟩

/-- Python substring containment `pat in s`, on character lists. -/
def containsL : List Char → List Char → Bool
  | [], pat => pat.isEmpty
  | c :: t, pat => pat.isPrefixOf (c :: t) || containsL t pat

/-- Python `pat in s`. -/
def strContains (s pat : String) : Bool := containsL s.data pat.data

/-- Leftmost non-overlapping replacement, fuelled by the string length
(Python `s.replace(old, new)` for non-empty `old`, the only way the
program calls it). -/
def replaceFuel : ℕ → List Char → List Char → List Char → List Char
  | 0, s, _, _ => s
  | _ + 1, [], _, _ => []
  | f + 1, c :: t, old, new =>
      if old ≠ [] ∧ old.isPrefixOf (c :: t) then
        new ++ replaceFuel f (List.drop old.length (c :: t)) old new
      else c :: replaceFuel f t old new

/-- Python `s.replace(old, new)` (for non-empty `old`). -/
def pyReplace (s old new : String) : String :=
  ⟨replaceFuel (s.data.length + 1) s.data old.data new.data⟩

/-- A Python value as it occurs in nutrient dictionaries and request
payloads: a finite number (int or float), a string that parses as a float
(carrying both its text and parsed value), a string that does not parse
as a float, or `None`.  A missing dict key is modelled as `Val.none`,
matching `dict.get(k)` returning `None`. -/
inductive Val where
  | num (q : ℚ)
  | strNum (s : String) (q : ℚ)
  | str (s : String)
  | none
  deriving DecidableEq, Repr

/-- Python truthiness of a `Val` (`0`, `""`, `None` are falsy; any string
that parses as a float is nonempty, hence truthy). -/
def truthy : Val → Bool
  | .num q => q != 0
  | .strNum _ _ => true
  | .str s => s != ""
  | .none => false

/-- Python `a or b`. -/
def pyOr (a b : Val) : Val := if truthy a then a else b

/-- Python `float(x)`, returning `Option.none` when `float` raises
(non-numeric string, `None`). -/
def pyFloat : Val → Option ℚ
  | .num q => some q
  | .strNum _ q => some q
  | .str _ => Option.none
  | .none => Option.none

/-- `_as_float` from `app.py`: `float(x)` with every exception caught and
turned into `None` (and `None` passed through as `None`). -/
def as_float : Val → Option ℚ := pyFloat

/-- Lookup in a string-keyed association list (Python `d[k]` / `k in d`
semantics for dicts with unique keys). -/
def dget {α : Type} (d : List (String × α)) (k : String) : Option α :=
  (d.find? (fun p => p.1 == k)).map Prod.snd

/-- Python `d.get(k, v0)`. -/
def dgetD (d : List (String × ℚ)) (k : String) (v0 : ℚ) : ℚ :=
  (dget d k).getD v0

/-- Python `d[k] = v`: update in place when the key exists, append otherwise. -/
def dset {α : Type} : List (String × α) → String → α → List (String × α)
  | [], k, v => [(k, v)]
  | (k', v') :: t, k, v =>
      if k' == k then (k, v) :: t else (k', v') :: dset t k v

/-- `scale_nutrients` from `app.py`: keep the entries whose value converts
to a float and multiply each by the multiplier. -/
def scale_nutrients (nutrients : List (String × Val)) (multiplier : ℚ) :
    List (String × ℚ) :=
  nutrients.filterMap (fun p => (as_float p.2).map (fun q => (p.1, q * multiplier)))

/-- `merge_totals` from `app.py`, specialised to the float-valued dicts
the code feeds it (the outputs of `scale_nutrients`): every value passes
the `is None` check and `float(v)` succeeds, so each entry is added onto
the accumulator. -/
def merge_totals (agg : List (String × ℚ)) (add : List (String × ℚ)) :
    List (String × ℚ) :=
  add.foldl (fun a p => dset a p.1 (dgetD a p.1 0 + p.2)) agg

/-- `_as_float(nutrients.get(key))` as used inside `compute_item_macros`. -/
def mget (n : List (String × Val)) (k : String) : Option ℚ :=
  match n.find? (fun p => p.1 == k) with
  | some p => as_float p.2
  | Option.none => Option.none

/-- Python `x or y` on optional floats: `None` and `0.0` are falsy and
fall through to the second operand. -/
def orF (a b : Option ℚ) : Option ℚ :=
  match a with
  | some q => if q = 0 then b else some q
  | Option.none => b

/-- The carbohydrate key chain of `compute_item_macros`:
`get("total_carbohydrate_g") or get("total_carbohydrate")`. -/
def macroCarbs (n : List (String × Val)) : Option ℚ :=
  orF (mget n "total_carbohydrate_g") (mget n "total_carbohydrate")

/-- The fat key chain of `compute_item_macros`:
`get("total_fat_g") or get("fat") or get("fat_g")`. -/
def macroFat (n : List (String × Val)) : Option ℚ :=
  orF (orF (mget n "total_fat_g") (mget n "fat")) (mget n "fat_g")

/-- The fiber key chain of `compute_item_macros`. -/
def macroFiber (n : List (String × Val)) : Option ℚ :=
  orF (orF (mget n "dietary_fiber_g") (mget n "fiber_g")) (mget n "fiber")

/-- The sugars key chain of `compute_item_macros`. -/
def macroSugars (n : List (String × Val)) : Option ℚ :=
  orF (orF (mget n "sugars_g") (mget n "sugars")) (mget n "sugar_g")

/-- Reinject an optional float as a Python value (`None` / float). -/
def optToVal : Option ℚ → Val
  | some q => .num q
  | Option.none => .none

/-- `compute_item_macros` from `app.py`: read the canonical macro keys
(with `or`-chained alternates), and when calories are absent but some
macro is present derive calories as `4p + 4c + 9f` with missing macros
(and, via `or`, zero-valued ones) replaced by `0.0`. -/
def compute_item_macros (n : List (String × Val)) : List (String × Val) :=
  let calories := mget n "calories_kcal"
  let protein := mget n "protein_g"
  let carbs := macroCarbs n
  let fat := macroFat n
  let fiber := macroFiber n
  let sugars := macroSugars n
  let calories' :=
    match calories with
    | some c => some c
    | Option.none =>
        if protein ≠ Option.none ∨ carbs ≠ Option.none ∨ fat ≠ Option.none then
          some (protein.getD 0 * 4 + carbs.getD 0 * 4 + fat.getD 0 * 9)
        else Option.none
  [("calories_kcal", optToVal calories'),
   ("protein_g", optToVal protein),
   ("total_carbohydrate_g", optToVal carbs),
   ("total_fat_g", optToVal fat),
   ("dietary_fiber_g", optToVal fiber),
   ("sugars_g", optToVal sugars)]

/-! ## Unit conversion (`fdc_utils._convert_unit`, `app._convert_value_to_target`) -/

/-- `_convert_unit` from `fdc_utils.py`.  `None` propagates; the two unit
strings are lowercased (`(u or "").lower()` — a `None` unit is modelled by
the empty string, which lowercases to itself); equal units and every
unrecognized pair pass the value through. -/
def convert_unit (value : Option ℚ) (from_unit to_unit : String) : Option ℚ :=
  match value with
  | Option.none => Option.none
  | some v =>
      let fu := pyLower from_unit
      let tu := pyLower to_unit
      if fu = tu then some v
      else if (fu = "mcg" ∨ fu = "μg") ∧ tu = "mg" then some (v / 1000)
      else if fu = "mg" ∧ (tu = "mcg" ∨ tu = "μg") then some (v * 1000)
      else if fu = "g" ∧ tu = "mg" then some (v * 1000)
      else if fu = "mg" ∧ tu = "g" then some (v / 1000)
      else some v

/-- `_unit_to_base` from `app.py`: canonical base unit names. -/
def unit_to_base (u : Option String) : Option String :=
  match u with
  | Option.none => Option.none
  | some s =>
      if s = "" then Option.none else
      let l := pyLower s
      if l = "g" ∨ l = "gram" ∨ l = "grams" then some "g"
      else if l = "mg" ∨ l = "milligram" ∨ l = "milligrams" then some "mg"
      else if l = "mcg" ∨ l = "μg" ∨ l = "microgram" ∨ l = "micrograms" then some "mcg"
      else if l = "kcal" ∨ l = "calories" ∨ l = "cal" then some "kcal"
      else some l

/-- `_convert_value_to_target` from `app.py`. -/
def convert_value_to_target (value : Option ℚ) (from_unit to_unit : Option String) :
    Option ℚ :=
  match value with
  | Option.none => Option.none
  | some v =>
      match unit_to_base from_unit, unit_to_base to_unit with
      | Option.none, _ => some v
      | _, Option.none => some v
      | some fu, some tu =>
          if fu = tu then some v
          else if (fu = "mcg" ∨ fu = "μg") ∧ tu = "mg" then some (v / 1000)
          else if fu = "mg" ∧ (tu = "mcg" ∨ tu = "μg") then some (v * 1000)
          else if fu = "g" ∧ tu = "mg" then some (v * 1000)
          else if fu = "mg" ∧ tu = "g" then some (v / 1000)
          else some v

/-! ## Percent of daily value (`app.compute_percent_dv`, `app.classify_percent_dv`) -/

/-- `FDA_DV` from `fda_daily_values.py`, in source order. -/
def FDA_DV : List (String × ℚ) :=
  [("total_fat_g", 78),
   ("saturated_fat_g", 20),
   ("cholesterol_mg", 300),
   ("sodium_mg", 2300),
   ("total_carbohydrate_g", 275),
   ("dietary_fiber_g", 28),
   ("added_sugars_g", 50),
   ("protein_g", 50),
   ("vitamin_D_mcg", 20),
   ("calcium_mg", 1300),
   ("iron_mg", 18),
   ("potassium_mg", 4700),
   ("vitamin_A_mcg_RAE", 900),
   ("vitamin_C_mg", 90),
   ("vitamin_E_mg", 15),
   ("vitamin_K_mcg", 120),
   ("thiamin_mg", 1.2),
   ("riboflavin_mg", 1.3),
   ("niacin_mg_NE", 16),
   ("vitamin_B6_mg", 1.7),
   ("folate_mcg_DFE", 400),
   ("vitamin_B12_mcg", 2.4),
   ("biotin_mcg", 30),
   ("pantothenic_acid_mg", 5),
   ("magnesium_mg", 420),
   ("zinc_mg", 11),
   ("selenium_mcg", 55)]

/-- The suffix-stripping loop of `find_best_nutrient_key`: each suffix in
the fixed order is stripped at most once. -/
def stripUnitSuffixes (s : String) : String :=
  ["_mg", "_mcg", "_g", "_kcal", "_RAE", "_NE"].foldl
    (fun b suf => if pyEndsWith b suf then pyDropRight b suf.length else b) s

/-- `find_best_nutrient_key` from `app.py`: exact key match, then (in one
pass) lowercase equality with the suffix-stripped base or `base_` prefix
match, then substring containment, over the totals dict in order. -/
def find_best_nutrient_key (target_key : String) (available : List (String × ℚ)) :
    Option (String × ℚ) :=
  if available.isEmpty then Option.none
  else
    match dget available target_key with
    | some v => some (target_key, v)
    | Option.none =>
        let base := pyLower (stripUnitSuffixes target_key)
        match available.find? (fun p =>
            pyLower p.1 == base || pyStartsWith (pyLower p.1) (base ++ "_")) with
        | some p => some p
        | Option.none =>
            match available.find? (fun p => strContains (pyLower p.1) base) with
            | some p => some p
            | Option.none => Option.none

/-- The unit a `compute_percent_dv` key implies, read off its suffix in
the source's test order (`_mg`, `_mcg`, `_g`, `_kcal`). -/
def suffixUnit (k : String) : Option String :=
  if pyEndsWith k "_mg" then some "mg"
  else if pyEndsWith k "_mcg" then some "mcg"
  else if pyEndsWith k "_g" then some "g"
  else if pyEndsWith k "_kcal" then some "kcal"
  else Option.none

/-- Round-half-to-even to an integer (Python `round` on exact values). -/
def roundHalfEven (q : ℚ) : ℤ :=
  let f := ⌊q⌋
  let r := q - (f : ℚ)
  if r < 1/2 then f
  else if 1/2 < r then f + 1
  else if 2 ∣ f then f else f + 1

/-- Python `round(x, 1)` on an exact value. -/
def pyRound1 (q : ℚ) : ℚ := (roundHalfEven (q * 10) : ℚ) / 10

/-- The per-reference-key body of `compute_percent_dv`: find the best
matching totals key, infer both units from suffixes, convert, then
`percent = converted / dv_value * 100` rounded to one decimal — `None`
when there is no match, conversion fails, or `dv_value` is falsy. -/
def percentEntry (dv_key : String) (dv_value : ℚ)
    (totals : List (String × ℚ)) : Option ℚ :=
  match find_best_nutrient_key dv_key totals with
  | some (found_key, found_val) =>
      match convert_value_to_target (some found_val)
          (suffixUnit found_key) (suffixUnit dv_key) with
      | some c => if dv_value = 0 then Option.none else some (pyRound1 (c / dv_value * 100))
      | Option.none => Option.none
  | Option.none => Option.none

/-- `compute_percent_dv` from `app.py`: one entry per `FDA_DV` key, in
table order. -/
def compute_percent_dv (totals : List (String × ℚ)) :
    List (String × Option ℚ) :=
  FDA_DV.map (fun p => (p.1, percentEntry p.1 p.2 totals))

/-- The record returned by `classify_percent_dv`. -/
structure Classification where
  pct : Option ℚ
  category : String
  label : String
  advice : String
  deriving DecidableEq, Repr

/-- `classify_percent_dv` from `app.py`. -/
def classify_percent_dv (pct : Option ℚ) : Classification :=
  match pct with
  | Option.none =>
      { pct := Option.none, category := "unknown", label := "No data",
        advice := "No data available." }
  | some p =>
      if 20 ≤ p then
        { pct := some p, category := "high", label := "High (good source)",
          advice := "This food is a significant source — useful to meet daily needs." }
      else if 5 ≤ p then
        { pct := some p, category := "moderate", label := "Moderate",
          advice := "Contributes to daily needs; combine with other foods." }
      else
        { pct := some p, category := "low", label := "Low",
          advice := "Low — consider adding foods rich in this nutrient." }

/-! ## External resolver (`fdc_utils.py`) -/

/-- Outcome of one HTTP GET attempt: a parsed JSON body, an `HTTPError`
carrying an optional status code, or any other exception (timeout, …). -/
inductive HttpOutcome (α : Type) where
  | ok (body : α)
  | httpErr (status : Option ℕ)
  | exc

/-- The `if status and 400 <= status < 500` test of `_safe_get` (an absent
or zero status code is falsy and takes the retry path). -/
def clientErr : Option ℕ → Bool
  | some st => 400 ≤ st && st < 500
  | Option.none => false

/-- The retry loop of `_safe_get`: `i` is the current attempt index, the
last argument the remaining attempts.  Returns the parsed body (or
`Option.none`), the number of HTTP requests issued, and the list of sleep
durations (`1 + attempt` seconds, in order). -/
def safeGetGo {α : Type} (f : ℕ → HttpOutcome α) (i : ℕ) :
    ℕ → Option α × ℕ × List ℕ
  | 0 => (Option.none, 0, [])
  | fuel + 1 =>
      match f i with
      | .ok b => (some b, 1, [])
      | .httpErr s =>
          if clientErr s then (Option.none, 1, [])
          else
            let r := safeGetGo f (i + 1) fuel
            (r.1, r.2.1 + 1, (1 + i) :: r.2.2)
      | .exc =>
          let r := safeGetGo f (i + 1) fuel
          (r.1, r.2.1 + 1, (1 + i) :: r.2.2)

/-- `_safe_get` from `fdc_utils.py`: disabled without an API key, at most
3 attempts, client-class (4xx) errors terminal. -/
def safe_get {α : Type} (hasKey : Bool) (f : ℕ → HttpOutcome α) :
    Option α × ℕ × List ℕ :=
  if hasKey then safeGetGo f 0 3 else (Option.none, 0, [])

/-- The `nutrient` sub-object of an FDC `foodNutrients` line item. -/
structure NutrientObj where
  name : Option String := Option.none
  unitName : Option String := Option.none
  deriving DecidableEq, Repr

/-- One entry of an FDC detail record's `foodNutrients` list; absent JSON
fields are `Option.none` / `Val.none`. -/
structure FoodComp where
  nutrient : Option NutrientObj := Option.none
  nutrientName : Option String := Option.none
  name : Option String := Option.none
  amount : Val := Val.none
  value : Val := Val.none
  unitName : Option String := Option.none
  deriving DecidableEq, Repr

/-- A value of the `labelNutrients` object: either a JSON object whose
`value` field is read, or something that is not a dict. -/
inductive LabelVal where
  | dict (value : Val)
  | nondict
  deriving DecidableEq, Repr

/-- The slice of an FDC detail record that
`extract_nutrients_from_fdc` / `lookup_food_nutrients` read. -/
structure FoodJson where
  foodNutrients : List FoodComp := []
  labelNutrients : List (String × LabelVal) := []
  servingSize : Val := Val.none
  servingSizeUnit : Val := Val.none
  householdServingFullText : Val := Val.none
  deriving DecidableEq, Repr

/-- Python `a or b` on optional strings (`None` and `""` are falsy). -/
def pyOrStr (a b : Option String) : Option String :=
  match a with
  | some s => if s = "" then b else some s
  | Option.none => b

/-- `_NUTRIENT_MAPPING` from `fdc_utils.py`: source nutrient name →
(canonical key, expected unit). -/
def NUTRIENT_MAPPING : List (String × String × String) :=
  [("Energy", ("calories_kcal", "kcal")),
   ("Energy (kcal)", ("calories_kcal", "kcal")),
   ("Protein", ("protein_g", "g")),
   ("Total lipid (fat)", ("total_fat_g", "g")),
   ("Fat", ("total_fat_g", "g")),
   ("Fatty acids, total saturated", ("saturated_fat_g", "g")),
   ("Carbohydrate, by difference", ("total_carbohydrate_g", "g")),
   ("Carbohydrate", ("total_carbohydrate_g", "g")),
   ("Fiber, total dietary", ("dietary_fiber_g", "g")),
   ("Sugars, total including NLEA", ("sugars_g", "g")),
   ("Sugars, total", ("sugars_g", "g")),
   ("Calcium, Ca", ("calcium_mg", "mg")),
   ("Iron, Fe", ("iron_mg", "mg")),
   ("Magnesium, Mg", ("magnesium_mg", "mg")),
   ("Phosphorus, P", ("phosphorus_mg", "mg")),
   ("Potassium, K", ("potassium_mg", "mg")),
   ("Sodium, Na", ("sodium_mg", "mg")),
   ("Zinc, Zn", ("zinc_mg", "mg")),
   ("Selenium, Se", ("selenium_mcg", "mcg")),
   ("Vitamin C, total ascorbic acid", ("vitamin_C_mg", "mg")),
   ("Vitamin D (D2 + D3)", ("vitamin_D_mcg", "mcg")),
   ("Vitamin A, RAE", ("vitamin_A_mcg_RAE", "mcg")),
   ("Vitamin E (alpha-tocopherol)", ("vitamin_E_mg", "mg")),
   ("Vitamin K (phylloquinone)", ("vitamin_K_mcg", "mcg")),
   ("Thiamin", ("thiamin_mg", "mg")),
   ("Riboflavin", ("riboflavin_mg", "mg")),
   ("Niacin", ("niacin_mg_NE", "mg")),
   ("Vitamin B-6", ("vitamin_B6_mg", "mg")),
   ("Folate, total", ("folate_mcg_DFE", "mcg")),
   ("Folate, DFE", ("folate_mcg_DFE", "mcg")),
   ("Vitamin B-12", ("vitamin_B12_mcg", "mcg")),
   ("Biotin", ("biotin_mcg", "mcg")),
   ("Pantothenic acid", ("pantothenic_acid_mg", "mg")),
   ("Cholesterol", ("cholesterol_mg", "mg")),
   ("Cholesterol, total", ("cholesterol_mg", "mg"))]

/-- The `label_map` of the branded-item fallback in
`extract_nutrients_from_fdc` (its expected-unit component is never used by
the code, so only the key is kept). -/
def LABEL_MAP : List (String × String) :=
  [("calories", "calories_kcal"),
   ("protein", "protein_g"),
   ("fat", "total_fat_g"),
   ("saturatedFat", "saturated_fat_g"),
   ("transFat", "trans_fat_g"),
   ("cholesterol", "cholesterol_mg"),
   ("sodium", "sodium_mg"),
   ("carbohydrates", "total_carbohydrate_g"),
   ("fiber", "dietary_fiber_g"),
   ("sugars", "sugars_g"),
   ("calcium", "calcium_mg"),
   ("iron", "iron_mg")]

/-- One iteration of the `foodNutrients` loop of
`extract_nutrients_from_fdc`. -/
def extractStep (out : List (String × Val)) (comp : FoodComp) :
    List (String × Val) :=
  let nobj := comp.nutrient.getD {}
  let name := pyOrStr (pyOrStr nobj.name comp.nutrientName) comp.name
  let amount := if comp.amount ≠ Val.none then comp.amount else comp.value
  let unit := pyOrStr nobj.unitName comp.unitName
  match name with
  | Option.none => out
  | some nm =>
      if nm = "" then out
      else if amount = Val.none then out
      else
        match dget NUTRIENT_MAPPING nm with
        | Option.none => out
        | some (key, expected_unit) =>
            let amt := pyFloat amount
            let normalized :=
              match unit with
              | some u =>
                  if expected_unit ≠ "" ∧ u ≠ "" then
                    convert_unit amt u
                      (pyReplace (pyReplace (pyReplace expected_unit "_mg" "mg") "_mcg" "mcg") "_g" "g")
                  else amt
              | Option.none => amt
            dset out key (optToVal (match normalized with
              | some q => some q
              | Option.none => amt))

/-- `extract_nutrients_from_fdc` from `fdc_utils.py`: map recognised
`foodNutrients` line items to canonical keys with unit conversion; when
none are recognised, fall back to the `labelNutrients` shape. -/
def extract_nutrients_from_fdc (fj : FoodJson) : List (String × Val) :=
  let out := fj.foodNutrients.foldl extractStep []
  if out.isEmpty then
    fj.labelNutrients.foldl (fun o p =>
      match dget LABEL_MAP p.1, p.2 with
      | some key, .dict v =>
          match pyFloat v with
          | some q => dset o key (Val.num q)
          | Option.none => o
      | _, _ => o) []
  else out

/-- The provenance dictionaries built by `fdc_utils.py` / `app.py`
(fields other than `source` default to absent). -/
structure Provenance where
  source : String
  fdcId : Option Val := Option.none
  description : Option String := Option.none
  servingSize : Val := Val.none
  servingSizeUnit : Val := Val.none
  householdServingFullText : Val := Val.none
  deriving DecidableEq, Repr

/-- An entry of the persistent FDC cache. -/
structure CacheEntry where
  nutrients : List (String × Val)
  provenance : Provenance
  timestamp : ℕ
  deriving DecidableEq, Repr

/-- One element of the `foods` list of an FDC search response. -/
structure FoodSummary where
  fdcId : Val := Val.none
  description : Option String := Option.none
  deriving DecidableEq, Repr

/-- The slice of an FDC search response that the code reads
(`search_res.get("foods") or []`). -/
structure SearchRes where
  foods : List FoodSummary := []
  deriving DecidableEq, Repr

/-- The ambient state `fdc_utils.py` interacts with: whether `FDC_API_KEY`
is set, the remote service's per-attempt responses for search and detail
requests, and the current clock (for cache timestamps). -/
structure FdcEnv where
  hasKey : Bool
  searchOutcomes : String → ℕ → HttpOutcome SearchRes
  detailOutcomes : Val → ℕ → HttpOutcome FoodJson
  now : ℕ

/-- `search_food` from `fdc_utils.py` (the page-size parameter does not
affect the model).  A successful response body is a non-empty JSON object,
so the `if not search_res` test downstream is its being `Option.none`. -/
def search_food (env : FdcEnv) (query : String) : Option SearchRes × ℕ × List ℕ :=
  safe_get env.hasKey (env.searchOutcomes query)

/-- `get_food_by_fdcid` from `fdc_utils.py`. -/
def get_food_by_fdcid (env : FdcEnv) (fdcId : Val) : Option FoodJson × ℕ × List ℕ :=
  safe_get env.hasKey (env.detailOutcomes fdcId)

/-- `lookup_food_nutrients` from `fdc_utils.py`.  The on-disk JSON cache
is passed and returned explicitly; the third component counts the HTTP
requests issued during the call. -/
def lookup_food_nutrients (env : FdcEnv) (cache : List (String × CacheEntry))
    (query : String) :
    (Option (List (String × Val)) × Provenance) × List (String × CacheEntry) × ℕ :=
  let key := pyStrip (pyLower query)
  match dget cache key with
  | some entry => ((some entry.nutrients, entry.provenance), cache, 0)
  | Option.none =>
      let s := search_food env query
      match s.1 with
      | Option.none => ((Option.none, {source := "fdc_search_failed"}), cache, s.2.1)
      | some sr =>
          match sr.foods with
          | [] => ((Option.none, {source := "no_results"}), cache, s.2.1)
          | chosen :: _ =>
              let fdcId := chosen.fdcId
              let d := get_food_by_fdcid env fdcId
              match d.1 with
              | Option.none =>
                  ((Option.none, {source := "fdc_detail_failed", fdcId := some fdcId}),
                   cache, s.2.1 + d.2.1)
              | some detail =>
                  let nutrients := extract_nutrients_from_fdc detail
                  let prov : Provenance :=
                    { source := "fdc", fdcId := some fdcId,
                      description := some ((pyOrStr chosen.description (some "")).getD ""),
                      servingSize := detail.servingSize,
                      servingSizeUnit := detail.servingSizeUnit,
                      householdServingFullText := detail.householdServingFullText }
                  let cache2 := dset cache key ⟨nutrients, prov, env.now⟩
                  ((some nutrients, prov), cache2, s.2.1 + d.2.1)

/-! ## Aggregation endpoint (`app.analyze_items`) -/

/-- One element of the `confirmed` payload list of `/analyze_items/`.
Each field is the dict's value under that key, `Val.none` when absent
(for `quantity`/`portion_mult`, whose Python default `1.0` and a stored
`None` flow through `... or 1.0` to the same multiplier, this
identification is exact). -/
structure Item where
  item : Val := Val.none
  quantity : Val := Val.none
  portion_mult : Val := Val.none
  calories : Val := Val.none
  manual_calories : Val := Val.none
  deriving DecidableEq, Repr

/-- One element of `per_item_provenance`. -/
structure ProvRec where
  raw : String
  mapped_to : Option String
  quantity : ℚ
  portion_mult : Option ℚ := Option.none
  prov : Provenance
  deriving DecidableEq, Repr

/-- `(c.get("item") or "").strip()`: `Option.none` models the
`AttributeError` raised when the value is a truthy non-string. -/
def itemName (c : Item) : Option String :=
  match pyOr c.item (Val.str "") with
  | .str s => some (pyStrip s)
  | .strNum s _ => some (pyStrip s)
  | _ => Option.none

/-- `float(c.get(k, 1.0) or 1.0)`: the multiplier-field parse used for
both `quantity` and `portion_mult` (`Option.none` models `float`
raising). -/
def parseQty (v : Val) : Option ℚ := pyFloat (pyOr v (Val.num 1))

/-- The body of the `for c in confirmed` loop of `analyze_items`, acting
on the running `(micronutrient_totals, per_item_provenance)` state.
`lookupFn` is the interface to `lookup_food_nutrients` (the cache and
network state are fixed for the duration of one claim's statement);
`Option.none` models an exception escaping to the endpoint's handler. -/
def analyzeStep (lookupFn : String → Option (List (String × Val)) × Provenance)
    (st : List (String × ℚ) × List ProvRec) (c : Item) :
    Option (List (String × ℚ) × List ProvRec) :=
  match itemName c with
  | Option.none => Option.none
  | some name =>
      if name = "" then some st
      else
        match parseQty c.quantity, parseQty c.portion_mult with
        | some qty, some pm =>
            let multiplier := qty * pm
            let manual := pyOr c.calories c.manual_calories
            let res := lookupFn name
            let nutrientsTruthy : Bool :=
              match res.1 with
              | some n => !n.isEmpty
              | Option.none => false
            if nutrientsTruthy = false ∧ manual = Val.none then
              some (st.1, st.2 ++
                [{raw := name, mapped_to := Option.none, quantity := qty,
                  prov := {source := "fdc_no_data"}}])
            else
              match res.1, nutrientsTruthy with
              | some n, true =>
                  let scaled_full := scale_nutrients n multiplier
                  let t1 := merge_totals st.1 scaled_full
                  let scaled_macros := scale_nutrients (compute_item_macros n) multiplier
                  let t2 := merge_totals t1 scaled_macros
                  some (t2, st.2 ++
                    [{raw := name, mapped_to := some name, quantity := qty,
                      portion_mult := some pm, prov := res.2}])
              | _, _ =>
                  let t :=
                    match pyFloat manual with
                    | some v =>
                        dset st.1 "calories_kcal"
                          (dgetD st.1 "calories_kcal" 0 + v * multiplier)
                    | Option.none => st.1
                  some (t, st.2 ++
                    [{raw := name, mapped_to := some name, quantity := qty,
                      prov := {source := "manual_calories"}}])
        | _, _ => Option.none

/-- The aggregation loop of `analyze_items` over the confirmed items,
producing `micronutrient_totals` and `per_item_provenance`. -/
def analyze_items (lookupFn : String → Option (List (String × Val)) × Provenance)
    (confirmed : List Item) : Option (List (String × ℚ) × List ProvRec) :=
  confirmed.foldlM (analyzeStep lookupFn) ([], [])

/-! ## JSON sanitizer (`app._sanitize_value`, `app.sanitize_for_json`) -/

/-- A Python float: finite, NaN, or ±Infinity. -/
inductive PFloat where
  | fin (q : ℚ)
  | nan
  | inf
  | ninf
  deriving DecidableEq, Repr

/-- A plain-Python JSON-ish value as fed to `sanitize_for_json` (the
numpy-specific branches of `_sanitize_value` coerce numpy scalars to the
corresponding plain values, so they need no constructors of their own;
`other` stands for any object that reaches the final `return None`). -/
inductive PyObj where
  | float (f : PFloat)
  | int (n : ℤ)
  | str (s : String)
  | bool (b : Bool)
  | none
  | list (xs : List PyObj)
  | dict (xs : List (String × PyObj))
  | other

/-- `_sanitize_value` from `app.py` on plain-Python values: non-finite
floats become `None`; ints, strings, bools and `None` pass through;
anything else falls to the final `return None`. -/
def sanitize_value : PyObj → PyObj
  | .float (.fin q) => .float (.fin q)
  | .float _ => .none
  | .int n => .int n
  | .str s => .str s
  | .bool b => .bool b
  | .none => .none
  | _ => .none

mutual

/-- `sanitize_for_json` from `app.py`: recurse through dicts (keeping
every key) and lists, sanitizing the leaves. -/
def sanitize_for_json : PyObj → PyObj
  | .dict xs => .dict (sanitizeDict xs)
  | .list xs => .list (sanitizeList xs)
  | v => sanitize_value v

/-- The list comprehension of `sanitize_for_json` on a list. -/
def sanitizeList : List PyObj → List PyObj
  | [] => []
  | x :: t => sanitize_for_json x :: sanitizeList t

/-- The dict comprehension of `sanitize_for_json`: values are sanitized,
keys are kept unconditionally. -/
def sanitizeDict : List (String × PyObj) → List (String × PyObj)
  | [] => []
  | (k, v) :: t => (k, sanitize_for_json v) :: sanitizeDict t

end

mutual

/-- No NaN/±Infinity occurs anywhere in the value. -/
def finiteOnly : PyObj → Bool
  | .float (.fin _) => true
  | .float _ => false
  | .list xs => finiteOnlyList xs
  | .dict xs => finiteOnlyDict xs
  | _ => true

/-- `finiteOnly` over a list. -/
def finiteOnlyList : List PyObj → Bool
  | [] => true
  | x :: t => finiteOnly x && finiteOnlyList t

/-- `finiteOnly` over a dict's values. -/
def finiteOnlyDict : List (String × PyObj) → Bool
  | [] => true
  | (_, v) :: t => finiteOnly v && finiteOnlyDict t

end

/-! ## Dictionary lemmas -/

lemma dget_dset_self {α : Type} (d : List (String × α)) (k : String) (v : α) :
    dget (dset d k v) k = some v := by
  induction d with
  | nil => simp [dget, dset]
  | cons p t ih =>
      by_cases h : p.1 = k
      · simp [dget, dset, h]
      · cases p with
        | mk k' v' =>
            simp only at h
            simp [dget, dset, h]
            simpa [dget] using ih

lemma dget_dset_ne {α : Type} (d : List (String × α)) (k k' : String) (v : α)
    (h : k' ≠ k) : dget (dset d k v) k' = dget d k' := by
  induction d with
  | nil => simp [dget, dset, Ne.symm h]
  | cons p t ih =>
      cases p with
      | mk k₀ v₀ =>
          by_cases h₀ : k₀ = k
          · subst h₀
            simp [dget, dset, Ne.symm h]
          · simp only [dset, beq_iff_eq, h₀, if_false]
            by_cases h₁ : k₀ = k'
            · simp [dget, h₁]
            · simp only [dget, List.find?] at ih ⊢
              have : (k₀ == k') = false := by simpa using h₁
              simp [this]
              simpa [dget] using ih

lemma dgetD_dset_self (d : List (String × ℚ)) (k : String) (v : ℚ) :
    dgetD (dset d k v) k 0 = v := by
  simp [dgetD, dget_dset_self]

lemma dgetD_dset_ne (d : List (String × ℚ)) (k k' : String) (v : ℚ)
    (h : k' ≠ k) : dgetD (dset d k v) k' 0 = dgetD d k' 0 := by
  simp [dgetD, dget_dset_ne _ _ _ _ h]

lemma mem_dset {α : Type} (d : List (String × α)) (k : String) (v : α)
    (p : String × α) (hp : p ∈ dset d k v) : p ∈ d ∨ p = (k, v) := by
  induction d with
  | nil => simpa [dset] using hp
  | cons q t ih =>
      cases q with
      | mk k₀ v₀ =>
          by_cases h₀ : k₀ = k
          · subst h₀
            simp only [dset, beq_self_eq_true, if_true] at hp
            rcases List.mem_cons.mp hp with h | h
            · right; exact h
            · left; exact List.mem_cons_of_mem _ h
          · simp only [dset, beq_iff_eq, h₀, if_false] at hp
            rcases List.mem_cons.mp hp with h | h
            · left; exact h ▸ List.mem_cons_self _ _
            · rcases ih h with h' | h'
              · left; exact List.mem_cons_of_mem _ h'
              · right; exact h'

lemma dget_mem {α : Type} (d : List (String × α)) (k : String) (v : α)
    (h : dget d k = some v) : ∃ k', (k', v) ∈ d := by
  unfold dget at h
  cases hf : d.find? (fun p => p.1 == k) with
  | none => rw [hf] at h; exact absurd h (by simp)
  | some p =>
      rw [hf] at h
      refine ⟨p.1, ?_⟩
      have hm := List.mem_of_find?_eq_some hf
      have hv : p.2 = v := by simpa using h
      rw [← hv]
      simpa using hm

lemma dgetD_nonneg (d : List (String × ℚ)) (k : String)
    (h : ∀ p ∈ d, 0 ≤ p.2) : 0 ≤ dgetD d k 0 := by
  unfold dgetD
  cases hg : dget d k with
  | none => simp
  | some v =>
      rcases dget_mem d k v hg with ⟨k', hm⟩
      simpa using h (k', v) hm

/-! ## Aggregation lemmas (for claim C2) -/

lemma merge_totals_nil (agg : List (String × ℚ)) : merge_totals agg [] = agg := rfl

lemma merge_totals_cons (agg : List (String × ℚ)) (k : String) (v : ℚ)
    (t : List (String × ℚ)) :
    merge_totals agg ((k, v) :: t) =
      merge_totals (dset agg k (dgetD agg k 0 + v)) t := rfl

lemma merge_totals_mono (add : List (String × ℚ)) :
    ∀ agg : List (String × ℚ), (∀ p ∈ add, 0 ≤ p.2) →
      ∀ k, dgetD agg k 0 ≤ dgetD (merge_totals agg add) k 0 := by
  induction add with
  | nil => intro agg _ k; simp [merge_totals_nil]
  | cons q t ih =>
      intro agg h k
      cases q with
      | mk k₀ v₀ =>
          rw [merge_totals_cons]
          have hv₀ : 0 ≤ v₀ := by simpa using h (k₀, v₀) (List.mem_cons_self _ _)
          have ht : ∀ p ∈ t, 0 ≤ p.2 := fun p hp => h p (List.mem_cons_of_mem _ hp)
          have step : dgetD agg k 0 ≤ dgetD (dset agg k₀ (dgetD agg k₀ 0 + v₀)) k 0 := by
            by_cases hk : k = k₀
            · subst hk
              rw [dgetD_dset_self]
              linarith
            · rw [dgetD_dset_ne _ _ _ _ hk]
          exact le_trans step (ih _ ht k)

lemma merge_totals_entries_nonneg (add : List (String × ℚ)) :
    ∀ agg : List (String × ℚ), (∀ p ∈ agg, 0 ≤ p.2) → (∀ p ∈ add, 0 ≤ p.2) →
      ∀ p ∈ merge_totals agg add, 0 ≤ p.2 := by
  induction add with
  | nil => intro agg ha _ p hp; exact ha p (by simpa [merge_totals_nil] using hp)
  | cons q t ih =>
      intro agg ha h p hp
      cases q with
      | mk k₀ v₀ =>
          rw [merge_totals_cons] at hp
          have hv₀ : 0 ≤ v₀ := by simpa using h (k₀, v₀) (List.mem_cons_self _ _)
          have ht : ∀ r ∈ t, 0 ≤ r.2 := fun r hr => h r (List.mem_cons_of_mem _ hr)
          have ha' : ∀ r ∈ dset agg k₀ (dgetD agg k₀ 0 + v₀), 0 ≤ r.2 := by
            intro r hr
            rcases mem_dset _ _ _ _ hr with h' | h'
            · exact ha r h'
            · rcases h' with rfl
              have := dgetD_nonneg agg k₀ ha
              simpa using add_nonneg this hv₀
          exact ih _ ha' ht p hp

lemma merge_totals_nonneg (agg add : List (String × ℚ))
    (ha : ∀ p ∈ agg, 0 ≤ p.2) (hb : ∀ p ∈ add, 0 ≤ p.2) (k : String) :
    0 ≤ dgetD (merge_totals agg add) k 0 :=
  dgetD_nonneg _ _ (merge_totals_entries_nonneg add agg ha hb)

lemma scale_nutrients_nonneg (n : List (String × Val)) (m : ℚ)
    (hn : ∀ p ∈ n, 0 ≤ (as_float p.2).getD 0) (hm : 0 ≤ m) :
    ∀ p ∈ scale_nutrients n m, 0 ≤ p.2 := by
  intro p hp
  unfold scale_nutrients at hp
  rcases List.mem_filterMap.mp hp with ⟨q, hq, hmap⟩
  cases hv : as_float q.2 with
  | none => rw [hv] at hmap; exact absurd hmap (by simp)
  | some v =>
      rw [hv] at hmap
      have h0 : 0 ≤ v := by simpa [hv] using hn q hq
      have hp2 : p = (q.1, v * m) := by simpa using hmap.symm
      rw [hp2]
      simpa using mul_nonneg h0 hm

/-! ## Claim C2 -/

/-- C2 (amended): the code never clamps, so the totals are monotonically
non-decreasing and non-negative only under the hypothesis that every
contributing value is non-negative: merging a vector with non-negative
entries never decreases any key's total; totals built from non-negative
contributions stay non-negative at every key; and `scale_nutrients`
yields non-negative entries from non-negative nutrient values and a
non-negative multiplier. -/
theorem totals_monotone_nonneg_of_nonneg_contributions :
    (∀ (agg add : List (String × ℚ)), (∀ p ∈ add, 0 ≤ p.2) →
      ∀ k, dgetD agg k 0 ≤ dgetD (merge_totals agg add) k 0) ∧
    (∀ (agg add : List (String × ℚ)), (∀ p ∈ agg, 0 ≤ p.2) →
      (∀ p ∈ add, 0 ≤ p.2) → ∀ k, 0 ≤ dgetD (merge_totals agg add) k 0) ∧
    (∀ (n : List (String × Val)) (m : ℚ),
      (∀ p ∈ n, 0 ≤ (as_float p.2).getD 0) → 0 ≤ m →
      ∀ p ∈ scale_nutrients n m, 0 ≤ p.2) :=
  ⟨fun agg add h k => merge_totals_mono add agg h k,
   fun agg add ha hb k => merge_totals_nonneg agg add ha hb k,
   fun n m hn hm => scale_nutrients_nonneg n m hn hm⟩

/-- Witness for `totals_monotone_nonneg_of_nonneg_contributions` at a
concrete accumulator and contribution. -/
theorem totals_monotone_nonneg_of_nonneg_contributions_witness :
    dgetD [("protein_g", (3 : ℚ))] "protein_g" 0 ≤
      dgetD (merge_totals [("protein_g", 3)] [("protein_g", 2), ("iron_mg", 1)]) "protein_g" 0 ∧
    0 ≤ dgetD (merge_totals [("protein_g", 3)] [("protein_g", 2), ("iron_mg", 1)]) "iron_mg" 0 :=
  ⟨totals_monotone_nonneg_of_nonneg_contributions.1
      [("protein_g", 3)] [("protein_g", 2), ("iron_mg", 1)]
      (by norm_num [List.forall_mem_cons]) "protein_g",
   totals_monotone_nonneg_of_nonneg_contributions.2.1
      [("protein_g", 3)] [("protein_g", 2), ("iron_mg", 1)]
      (by norm_num [List.forall_mem_cons]) (by norm_num [List.forall_mem_cons]) "iron_mg"⟩

/-- Counterexample to C2 as stated: a contributing vector with a negative
amount is not clamped — after merging the scaled vector
`{sodium_mg: -5}` the total at `sodium_mg` is `-5`, which is negative and
strictly below its previous value `0`. -/
theorem totals_negative_counterexample :
    dgetD (merge_totals [] (scale_nutrients [("sodium_mg", Val.num (-5))] 1)) "sodium_mg" 0 = -5 ∧
    dgetD (merge_totals [] (scale_nutrients [("sodium_mg", Val.num (-5))] 1)) "sodium_mg" 0 < 0 ∧
    dgetD (merge_totals [] (scale_nutrients [("sodium_mg", Val.num (-5))] 1)) "sodium_mg" 0 <
      dgetD ([] : List (String × ℚ)) "sodium_mg" 0 := by
  refine ⟨?_, ?_, ?_⟩ <;>
    norm_num [merge_totals, scale_nutrients, as_float, pyFloat, dgetD, dget, dset,
      List.foldl, List.filterMap, List.find?]

/-! ## Claim C4 -/

lemma pyLower_g : pyLower "g" = "g" := rfl

lemma pyLower_mg : pyLower "mg" = "mg" := rfl

lemma pyLower_mcg : pyLower "mcg" = "mcg" := rfl

lemma pyLower_cup : pyLower "cup" = "cup" := rfl

lemma pyLower_ml : pyLower "ml" = "ml" := rfl

/-- C4: unit conversion uses the fixed linear factors g→mg ×1000,
mg→g ÷1000, mg→mcg ×1000, mcg→mg ÷1000; equal and unrecognized unit pairs
pass the value through; and g→mg→g and mg→mcg→mg round-trips are exact
identities, in both `_convert_unit` (fdc_utils) and
`_convert_value_to_target` (app). -/
theorem unit_conversion_identity :
    (∀ v : ℚ, convert_unit (some v) "g" "mg" = some (v * 1000)) ∧
    (∀ v : ℚ, convert_unit (some v) "mg" "g" = some (v / 1000)) ∧
    (∀ v : ℚ, convert_unit (some v) "mg" "mcg" = some (v * 1000)) ∧
    (∀ v : ℚ, convert_unit (some v) "mcg" "mg" = some (v / 1000)) ∧
    (∀ v : ℚ, convert_unit (convert_unit (some v) "g" "mg") "mg" "g" = some v) ∧
    (∀ v : ℚ, convert_unit (convert_unit (some v) "mg" "mcg") "mcg" "mg" = some v) ∧
    (∀ v : ℚ, convert_unit (convert_unit (some v) "mcg" "mg") "mg" "mcg" = some v) ∧
    (∀ v : ℚ, convert_unit (some v) "g" "mcg" = some v) ∧
    (∀ v : ℚ, convert_unit (some v) "cup" "ml" = some v) ∧
    (∀ (v : ℚ) (u : String), convert_unit (some v) u u = some v) ∧
    (∀ v : ℚ, convert_value_to_target
      (convert_value_to_target (some v) (some "g") (some "mg"))
      (some "mg") (some "g") = some v) ∧
    (∀ v : ℚ, convert_value_to_target
      (convert_value_to_target (some v) (some "mg") (some "mcg"))
      (some "mcg") (some "mg") = some v) := by
  refine ⟨?_, ?_, ?_, ?_, ?_, ?_, ?_, ?_, ?_, ?_, ?_, ?_⟩ <;> intro v
  all_goals try intro u
  all_goals
    simp [convert_unit, convert_value_to_target, unit_to_base,
      pyLower_g, pyLower_mg, pyLower_mcg, pyLower_cup, pyLower_ml]

/-! ## Claim C8 -/

mutual

theorem sanitize_finite : ∀ v, finiteOnly (sanitize_for_json v) = true
  | .float f => by cases f <;> rfl
  | .int _ => rfl
  | .str _ => rfl
  | .bool _ => rfl
  | .none => rfl
  | .other => rfl
  | .list xs => by
      simpa [sanitize_for_json, finiteOnly] using sanitizeList_finite xs
  | .dict xs => by
      simpa [sanitize_for_json, finiteOnly] using sanitizeDict_finite xs

theorem sanitizeList_finite : ∀ xs, finiteOnlyList (sanitizeList xs) = true
  | [] => rfl
  | x :: t => by
      simp [sanitizeList, finiteOnlyList, sanitize_finite x, sanitizeList_finite t]

theorem sanitizeDict_finite : ∀ xs, finiteOnlyDict (sanitizeDict xs) = true
  | [] => rfl
  | (_, v) :: t => by
      simp [sanitizeDict, finiteOnlyDict, sanitize_finite v, sanitizeDict_finite t]

end

lemma sanitizeDict_keys : ∀ xs : List (String × PyObj),
    (sanitizeDict xs).map Prod.fst = xs.map Prod.fst
  | [] => rfl
  | (_, _) :: t => by simp [sanitizeDict, sanitizeDict_keys t]

/-- C8 (amended): the sanitized response never contains NaN/±Infinity —
every non-finite float is normalized to `None` (JSON `null`) — but the
key is retained with a `null` value, not omitted: the sanitized dict has
exactly the keys of its input. -/
theorem sanitized_never_nonfinite :
    (∀ v, finiteOnly (sanitize_for_json v) = true) ∧
    (∀ xs : List (String × PyObj),
      (sanitizeDict xs).map Prod.fst = xs.map Prod.fst) :=
  ⟨sanitize_finite, sanitizeDict_keys⟩

/-- Counterexample to C8 as stated: sanitizing `{"a": inf}` yields
`{"a": None}` — the key `"a"` is still present (mapped to `null`), not
omitted from the map. -/
theorem sanitize_keeps_key_counterexample :
    sanitize_for_json (.dict [("a", .float .inf)]) = .dict [("a", PyObj.none)] ∧
    PyObj.dict [("a", PyObj.none)] ≠ PyObj.dict [] := by
  constructor
  · rfl
  · intro h
    have : ([("a", PyObj.none)] : List (String × PyObj)) = [] := by
      injection h
    exact absurd this (by simp)

/-! ## Claim C9 -/

/-- C9 (amended): per-item macro calories.  When `calories_kcal` is
present and numeric it is returned unchanged.  When it is absent or
non-numeric, calories are derived as `protein×4 + carbohydrates×4 +
fat×9` — but only when the `or`-chained macro reads themselves are
non-`None`: a numeric `0` at an earlier key of a chain is falsy and falls
through (so e.g. `{"total_carbohydrate_g": 0}` alone yields `None`
calories, not `0`). -/
theorem item_macro_calories :
    (∀ (n : List (String × Val)) (v : ℚ), mget n "calories_kcal" = some v →
      dget (compute_item_macros n) "calories_kcal" = some (Val.num v)) ∧
    (∀ n : List (String × Val), mget n "calories_kcal" = Option.none →
      (mget n "protein_g" ≠ Option.none ∨ macroCarbs n ≠ Option.none ∨
        macroFat n ≠ Option.none) →
      dget (compute_item_macros n) "calories_kcal" =
        some (Val.num ((mget n "protein_g").getD 0 * 4 +
          (macroCarbs n).getD 0 * 4 + (macroFat n).getD 0 * 9))) ∧
    (∀ n : List (String × Val), mget n "calories_kcal" = Option.none →
      mget n "protein_g" = Option.none → macroCarbs n = Option.none →
      macroFat n = Option.none →
      dget (compute_item_macros n) "calories_kcal" = some Val.none) := by
  refine ⟨?_, ?_, ?_⟩
  · intro n v h
    simp [compute_item_macros, dget, List.find?, h, optToVal]
  · intro n h hp
    simp [compute_item_macros, dget, List.find?, h, hp, optToVal]
  · intro n h h1 h2 h3
    simp [compute_item_macros, dget, List.find?, h, h1, h2, h3, optToVal]

/-- Witness for `item_macro_calories`: an item with only
`protein_g = 10` gets derived calories `10×4 + 0 + 0`. -/
theorem item_macro_calories_witness :
    dget (compute_item_macros [("protein_g", Val.num 10)]) "calories_kcal" =
      some (Val.num ((mget [("protein_g", Val.num 10)] "protein_g").getD 0 * 4 +
        (macroCarbs [("protein_g", Val.num 10)]).getD 0 * 4 +
        (macroFat [("protein_g", Val.num 10)]).getD 0 * 9)) :=
  item_macro_calories.2.1 [("protein_g", Val.num 10)] (by decide)
    (Or.inl (by decide))

/-- Counterexample to C9 as stated: in `{"total_carbohydrate_g": 0}` the
carbohydrate macro is present and numeric, so the claim demands derived
calories `0×4 + 0×4 + 0×9 = 0`; the code's `or`-chain treats the falsy
`0.0` as absent and reports calories `None`. -/
theorem item_macro_zero_carbs_counterexample :
    dget (compute_item_macros [("total_carbohydrate_g", Val.num 0)]) "calories_kcal" =
      some Val.none ∧
    some Val.none ≠ some (Val.num (0 * 4 + 0 * 4 + 0 * 9)) := by
  constructor
  · decide
  · decide

/-! ## Claim C5 -/

/-- C5: percent of daily value.  For every reference entry `(k, v)` of
`FDA_DV` (all of which have `v ≠ 0`): when a best-matching totals key is
found and unit conversion yields `c`, the output entry for `k` is
`round(c / v × 100, 1)`; when no match is found the entry is `null`.
Classification: `≥ 20 → high`, `5 ≤ · < 20 → moderate`, `< 5 → low`,
`null → unknown`.  Scenario: totals `{sodium_mg: 2300}` against reference
`sodium_mg: 2300` yields percent `100.0`, category `high`. -/
theorem percent_dv_spec :
    (∀ (totals : List (String × ℚ)) (k : String) (v : ℚ),
      (k, v) ∈ FDA_DV → v ≠ 0 →
      ∀ (fk : String) (fv c : ℚ),
        find_best_nutrient_key k totals = some (fk, fv) →
        convert_value_to_target (some fv) (suffixUnit fk) (suffixUnit k) = some c →
        (k, some (pyRound1 (c / v * 100))) ∈ compute_percent_dv totals) ∧
    (∀ (totals : List (String × ℚ)) (k : String) (v : ℚ),
      (k, v) ∈ FDA_DV → find_best_nutrient_key k totals = Option.none →
      (k, (Option.none : Option ℚ)) ∈ compute_percent_dv totals) ∧
    (∀ p : ℚ, 20 ≤ p → (classify_percent_dv (some p)).category = "high") ∧
    (∀ p : ℚ, 5 ≤ p → p < 20 → (classify_percent_dv (some p)).category = "moderate") ∧
    (∀ p : ℚ, p < 5 → (classify_percent_dv (some p)).category = "low") ∧
    ((classify_percent_dv Option.none).category = "unknown") ∧
    (dget (compute_percent_dv [("sodium_mg", 2300)]) "sodium_mg" = some (some 100)) ∧
    ((classify_percent_dv (some 100)).category = "high") := by
  refine ⟨?_, ?_, ?_, ?_, ?_, ?_, ?_, ?_⟩
  · intro totals k v hkv hv fk fv c hf hc
    refine List.mem_map.mpr ⟨(k, v), hkv, ?_⟩
    simp only [percentEntry, hf, hc, if_neg hv]
  · intro totals k v hkv hf
    refine List.mem_map.mpr ⟨(k, v), hkv, ?_⟩
    simp only [percentEntry, hf]
  · intro p h
    simp [classify_percent_dv, if_pos h]
  · intro p h1 h2
    rw [classify_percent_dv, if_neg (by exact not_le.mpr h2), if_pos h1]
  · intro p h
    rw [classify_percent_dv, if_neg (by linarith), if_neg (by exact not_le.mpr h)]
  · rfl
  · have h1 : dget (compute_percent_dv [("sodium_mg", 2300)]) "sodium_mg" =
        some (percentEntry "sodium_mg" 2300 [("sodium_mg", 2300)]) := by
      simp +decide [compute_percent_dv, FDA_DV, dget, List.find?, List.map]
    have h2 : percentEntry "sodium_mg" 2300 [("sodium_mg", 2300)] = some 100 := by
      have hfb : find_best_nutrient_key "sodium_mg" [("sodium_mg", (2300 : ℚ))] =
          some ("sodium_mg", 2300) := by
        simp +decide [find_best_nutrient_key, dget, List.find?, List.isEmpty]
      have hru : pyRound1 (100 : ℚ) = 100 := by
        have hfl : ⌊(100 : ℚ) * 10⌋ = 1000 := by norm_num
        norm_num [pyRound1, roundHalfEven, hfl]
      simp only [percentEntry, hfb]
      simp +decide [convert_value_to_target, unit_to_base, suffixUnit, hru]
    rw [h1, h2]
  · rfl

/-- Witness for `percent_dv_spec` at the sodium scenario. -/
theorem percent_dv_spec_witness :
    ("sodium_mg", some (pyRound1 ((2300 : ℚ) / 2300 * 100))) ∈
      compute_percent_dv [("sodium_mg", 2300)] :=
  percent_dv_spec.1 [("sodium_mg", 2300)] "sodium_mg" 2300
    (by norm_num [FDA_DV]) (by norm_num) "sodium_mg" 2300 2300
    (by simp +decide [find_best_nutrient_key, dget, List.find?, List.isEmpty])
    (by simp +decide [convert_value_to_target, unit_to_base, suffixUnit])

/-! ## `analyze_items` lemmas -/

lemma analyze_items_singleton
    (lookupFn : String → Option (List (String × Val)) × Provenance) (c : Item) :
    analyze_items lookupFn [c] = analyzeStep lookupFn ([], []) c := by
  simp [analyze_items]

lemma analyzeStep_nutrients
    (lookupFn : String → Option (List (String × Val)) × Provenance)
    (st : List (String × ℚ) × List ProvRec) (c : Item) (name : String)
    (n : List (String × Val)) (prov : Provenance) (q pm : ℚ)
    (hn : itemName c = some name) (hne : name ≠ "")
    (hl : lookupFn name = (some n, prov)) (hnn : n ≠ [])
    (hq : parseQty c.quantity = some q) (hpm : parseQty c.portion_mult = some pm) :
    analyzeStep lookupFn st c =
      some (merge_totals (merge_totals st.1 (scale_nutrients n (q * pm)))
              (scale_nutrients (compute_item_macros n) (q * pm)),
            st.2 ++ [{raw := name, mapped_to := some name, quantity := q,
                      portion_mult := some pm, prov := prov}]) := by
  have hempty : n.isEmpty = false := by
    cases n with
    | nil => exact absurd rfl hnn
    | cons a t => rfl
  simp only [analyzeStep, hn, hq, hpm, hl, hempty]
  simp [hne]

lemma analyzeStep_no_data
    (lookupFn : String → Option (List (String × Val)) × Provenance)
    (st : List (String × ℚ) × List ProvRec) (c : Item) (name : String) (q pm : ℚ)
    (hn : itemName c = some name) (hne : name ≠ "")
    (hl : (lookupFn name).1 = Option.none)
    (hq : parseQty c.quantity = some q) (hpm : parseQty c.portion_mult = some pm)
    (hm : pyOr c.calories c.manual_calories = Val.none) :
    analyzeStep lookupFn st c =
      some (st.1, st.2 ++ [{raw := name, mapped_to := Option.none, quantity := q,
                            prov := {source := "fdc_no_data"}}]) := by
  simp only [analyzeStep, hn, hq, hpm, hl, hm]
  simp [hne]

lemma analyzeStep_manual
    (lookupFn : String → Option (List (String × Val)) × Provenance)
    (st : List (String × ℚ) × List ProvRec) (c : Item) (name : String) (q pm v : ℚ)
    (hn : itemName c = some name) (hne : name ≠ "")
    (hl : (lookupFn name).1 = Option.none)
    (hq : parseQty c.quantity = some q) (hpm : parseQty c.portion_mult = some pm)
    (hv : pyFloat (pyOr c.calories c.manual_calories) = some v) :
    analyzeStep lookupFn st c =
      some (dset st.1 "calories_kcal" (dgetD st.1 "calories_kcal" 0 + v * (q * pm)),
            st.2 ++ [{raw := name, mapped_to := some name, quantity := q,
                      prov := {source := "manual_calories"}}]) := by
  have hm : pyOr c.calories c.manual_calories ≠ Val.none := by
    intro h
    rw [h] at hv
    exact absurd hv (by simp [pyFloat])
  simp only [analyzeStep, hn, hq, hpm, hl, hv]
  simp [hne, hm]

lemma analyzeStep_manual_non_numeric
    (lookupFn : String → Option (List (String × Val)) × Provenance)
    (st : List (String × ℚ) × List ProvRec) (c : Item) (name : String) (q pm : ℚ)
    (hn : itemName c = some name) (hne : name ≠ "")
    (hl : (lookupFn name).1 = Option.none)
    (hq : parseQty c.quantity = some q) (hpm : parseQty c.portion_mult = some pm)
    (hm : pyOr c.calories c.manual_calories ≠ Val.none)
    (hv : pyFloat (pyOr c.calories c.manual_calories) = Option.none) :
    analyzeStep lookupFn st c =
      some (st.1, st.2 ++ [{raw := name, mapped_to := some name, quantity := q,
                            prov := {source := "manual_calories"}}]) := by
  simp only [analyzeStep, hn, hq, hpm, hl, hv]
  simp [hne, hm]

/-- A lookup interface returning `{calories_kcal: 100}` with `fdc`
provenance for every name (a concrete instance of
`lookup_food_nutrients`'s post-state behaviour). -/
def lookup100 : String → Option (List (String × Val)) × Provenance :=
  fun _ => (some [("calories_kcal", Val.num 100)], {source := "fdc"})

/-- A lookup interface that always fails (`fdc_search_failed`, no data). -/
def lookupNoData : String → Option (List (String × Val)) × Provenance :=
  fun _ => (Option.none, {source := "fdc_search_failed"})

/-! ## Claim C1 -/

/-- C1 fails on the code: for a single confirmed item whose lookup yields
`{calories_kcal: 100}` with quantity 1 and portion multiplier 1, the sum
of scaled per-item calories is `100`, but `analyze_items` merges both the
scaled raw vector and the scaled computed macros into the totals, so
`totals["calories_kcal"]` is `200` — off by far more than the `1e-6`
tolerance.  (This contradicts the spec's explicit aggregation-linearity
property; the double merge is the slip.) -/
theorem calories_double_counted :
    (analyze_items lookup100 [{item := Val.str "apple"}]).map Prod.fst =
      some [("calories_kcal", 200)] ∧
    (100 : ℚ) * (1 * 1) = 100 ∧
    |(200 : ℚ) - 100| > 1 / 1000000 := by
  refine ⟨?_, by norm_num, by norm_num⟩
  rw [analyze_items_singleton,
    analyzeStep_nutrients lookup100 ([], []) _ "apple"
      [("calories_kcal", Val.num 100)] {source := "fdc"} 1 1
      (by decide) (by decide) rfl (by decide) (by decide) (by decide)]
  simp only [Option.map_some]
  norm_num [merge_totals, scale_nutrients, compute_item_macros, mget, macroCarbs,
    macroFat, macroFiber, macroSugars, orF, as_float, pyFloat, optToVal, dgetD,
    dget, dset, List.find?, List.filterMap, List.foldl]

/-! ## Claim C7 -/

/-- C7 (amended): each item's nutrient vector is scaled by
`quantity × portionMultiplier` before accumulation, and a missing
quantity defaults to `1.0` — but through `c.get("quantity", 1.0) or 1.0`
every *falsy* quantity, including the valid number `0`, also becomes
`1.0`; only a non-zero numeric quantity is used as given.  (So a quantity
of `0` does *not* zero the item's contribution.) -/
theorem quantity_portion_scaling :
    parseQty Val.none = some 1 ∧
    parseQty (Val.num 0) = some 1 ∧
    (∀ q : ℚ, q ≠ 0 → parseQty (Val.num q) = some q) ∧
    (∀ (lookupFn : String → Option (List (String × Val)) × Provenance)
       (c : Item) (name : String) (n : List (String × Val)) (prov : Provenance)
       (q pm : ℚ),
      itemName c = some name → name ≠ "" →
      lookupFn name = (some n, prov) → n ≠ [] →
      parseQty c.quantity = some q → parseQty c.portion_mult = some pm →
      analyze_items lookupFn [c] =
        some (merge_totals (merge_totals [] (scale_nutrients n (q * pm)))
                (scale_nutrients (compute_item_macros n) (q * pm)),
              [{raw := name, mapped_to := some name, quantity := q,
                portion_mult := some pm, prov := prov}])) := by
  refine ⟨by decide, by decide, ?_, ?_⟩
  · intro q hq
    simp [parseQty, pyOr, truthy, pyFloat, hq]
  · intro lookupFn c name n prov q pm hn hne hl hnn hq hpm
    rw [analyze_items_singleton,
      analyzeStep_nutrients lookupFn ([], []) c name n prov q pm hn hne hl hnn hq hpm]
    rfl

/-- Witness for `quantity_portion_scaling`: quantity 2 scales a
100-calorie item through the aggregation pipeline. -/
theorem quantity_portion_scaling_witness :
    analyze_items lookup100 [{item := Val.str "apple", quantity := Val.num 2}] =
      some (merge_totals
              (merge_totals [] (scale_nutrients [("calories_kcal", Val.num 100)] (2 * 1)))
              (scale_nutrients (compute_item_macros [("calories_kcal", Val.num 100)]) (2 * 1)),
            [{raw := "apple", mapped_to := some "apple", quantity := 2,
              portion_mult := some 1, prov := {source := "fdc"}}]) :=
  quantity_portion_scaling.2.2.2 lookup100
    {item := Val.str "apple", quantity := Val.num 2} "apple"
    [("calories_kcal", Val.num 100)] {source := "fdc"} 2 1
    (by decide) (by decide) rfl (by decide) (by decide) (by decide)

/-- Counterexample to C7 as stated: a *valid* quantity of `0` is falsy,
so `0 or 1.0` replaces it by `1.0` and the item contributes its full
(indeed doubled) calories instead of zero. -/
theorem quantity_zero_counterexample :
    (analyze_items lookup100
        [{item := Val.str "apple", quantity := Val.num 0}]).map Prod.fst =
      some [("calories_kcal", 200)] ∧
    (200 : ℚ) ≠ 0 := by
  refine ⟨?_, by norm_num⟩
  rw [analyze_items_singleton,
    analyzeStep_nutrients lookup100 ([], []) _ "apple"
      [("calories_kcal", Val.num 100)] {source := "fdc"} 1 1
      (by decide) (by decide) rfl (by decide) (by decide) (by decide)]
  simp only [Option.map_some]
  norm_num [merge_totals, scale_nutrients, compute_item_macros, mget, macroCarbs,
    macroFat, macroFiber, macroSugars, orF, as_float, pyFloat, optToVal, dgetD,
    dget, dset, List.find?, List.filterMap, List.foldl]

/-! ## Claim C10 -/

/-- C10 (amended): for an item whose lookup yields no nutrients, a manual
calories value that converts to a float `v` adds exactly
`v × quantity × portionMultiplier` to `totals["calories_kcal"]` (and to
no other key) with provenance `manual_calories`; a manual value on which
`float` raises contributes nothing (still recorded as
`manual_calories`).  However the manual value is read as
`c.get("calories") or c.get("manual_calories")`, so a *falsy* value —
e.g. the numeric `0` — falls through; if both reads are falsy/absent the
combined value is `None` and the claim's `manual_calories` path is not
taken at all. -/
theorem manual_calories_fallback :
    (∀ (lookupFn : String → Option (List (String × Val)) × Provenance)
       (c : Item) (name : String) (q pm v : ℚ),
      itemName c = some name → name ≠ "" →
      (lookupFn name).1 = Option.none →
      parseQty c.quantity = some q → parseQty c.portion_mult = some pm →
      pyFloat (pyOr c.calories c.manual_calories) = some v →
      analyze_items lookupFn [c] =
        some ([("calories_kcal", v * (q * pm))],
              [{raw := name, mapped_to := some name, quantity := q,
                prov := {source := "manual_calories"}}])) ∧
    (∀ (lookupFn : String → Option (List (String × Val)) × Provenance)
       (c : Item) (name : String) (q pm : ℚ),
      itemName c = some name → name ≠ "" →
      (lookupFn name).1 = Option.none →
      parseQty c.quantity = some q → parseQty c.portion_mult = some pm →
      pyOr c.calories c.manual_calories ≠ Val.none →
      pyFloat (pyOr c.calories c.manual_calories) = Option.none →
      analyze_items lookupFn [c] =
        some ([],
              [{raw := name, mapped_to := some name, quantity := q,
                prov := {source := "manual_calories"}}])) := by
  constructor
  · intro lookupFn c name q pm v hn hne hl hq hpm hv
    rw [analyze_items_singleton,
      analyzeStep_manual lookupFn ([], []) c name q pm v hn hne hl hq hpm hv]
    norm_num [dset, dgetD, dget, List.find?]
  · intro lookupFn c name q pm hn hne hl hq hpm hm hv
    rw [analyze_items_singleton,
      analyzeStep_manual_non_numeric lookupFn ([], []) c name q pm hn hne hl hq hpm hm hv]
    rfl

/-- Witness for `manual_calories_fallback`: manual calories 50 with
quantity 2 contribute exactly `100` to `calories_kcal`. -/
theorem manual_calories_fallback_witness :
    analyze_items lookupNoData
        [{item := Val.str "tea", quantity := Val.num 2, calories := Val.num 50}] =
      some ([("calories_kcal", (50 : ℚ) * (2 * 1))],
            [{raw := "tea", mapped_to := some "tea", quantity := 2,
              prov := {source := "manual_calories"}}]) :=
  manual_calories_fallback.1 lookupNoData
    {item := Val.str "tea", quantity := Val.num 2, calories := Val.num 50}
    "tea" 2 1 50 (by decide) (by decide) rfl (by decide) (by decide) (by decide)

/-- Counterexample to C10 as stated: an item carrying the numeric manual
calories value `0` is falsy, so `c.get("calories") or
c.get("manual_calories")` yields `None` and the item is recorded with
provenance `fdc_no_data`, not `manual_calories` as the claim demands. -/
theorem manual_zero_calories_counterexample :
    analyze_items lookupNoData [{item := Val.str "tea", calories := Val.num 0}] =
      some ([], [{raw := "tea", mapped_to := Option.none, quantity := 1,
                  prov := {source := "fdc_no_data"}}]) ∧
    "fdc_no_data" ≠ "manual_calories" := by
  constructor
  · rw [analyze_items_singleton,
      analyzeStep_no_data lookupNoData ([], []) _ "tea" 1 1
        (by decide) (by decide) rfl (by decide) (by decide) (by decide)]
    rfl
  · decide

/-! ## Claim C3 -/

/-- C3: cache round-trip.  From any cache without the normalized key,
when the search returns a result list headed by `chosen` on its first
attempt and the detail fetch for `chosen.fdcId` succeeds on its first
attempt, the first resolution performs exactly one search HTTP request
and one detail HTTP request, extracts the (unscaled) vector, and writes
it with its provenance to the cache under the normalized query key; the
second resolution of the same query is a cache hit: it returns exactly
the stored vector and provenance, performs no external request, and
leaves the cache unchanged (so the key is written exactly once). -/
theorem cache_round_trip (env : FdcEnv) (cache : List (String × CacheEntry))
    (q : String) (sr : SearchRes) (chosen : FoodSummary)
    (rest : List FoodSummary) (fj : FoodJson)
    (hk : env.hasKey = true)
    (hmiss : dget cache (pyStrip (pyLower q)) = Option.none)
    (hs : env.searchOutcomes q 0 = HttpOutcome.ok sr)
    (hfoods : sr.foods = chosen :: rest)
    (hd : env.detailOutcomes chosen.fdcId 0 = HttpOutcome.ok fj) :
    ∃ (N : List (String × Val)) (P : Provenance),
      N = extract_nutrients_from_fdc fj ∧
      lookup_food_nutrients env cache q =
        ((some N, P), dset cache (pyStrip (pyLower q)) ⟨N, P, env.now⟩, 2) ∧
      lookup_food_nutrients env (dset cache (pyStrip (pyLower q)) ⟨N, P, env.now⟩) q =
        ((some N, P), dset cache (pyStrip (pyLower q)) ⟨N, P, env.now⟩, 0) := by
  refine ⟨extract_nutrients_from_fdc fj,
    { source := "fdc", fdcId := some chosen.fdcId,
      description := some ((pyOrStr chosen.description (some "")).getD ""),
      servingSize := fj.servingSize,
      servingSizeUnit := fj.servingSizeUnit,
      householdServingFullText := fj.householdServingFullText }, rfl, ?_, ?_⟩
  · simp only [lookup_food_nutrients, hmiss, search_food, get_food_by_fdcid,
      safe_get, hk, if_true, safeGetGo, hs, hfoods, hd]
  · simp only [lookup_food_nutrients, dget_dset_self]

/-- A concrete environment for the cache-round-trip witness: the search
finds fdcId 7 ("Apple") and the detail record carries `Energy 52 kcal`. -/
def envRoundTrip : FdcEnv :=
  { hasKey := true,
    searchOutcomes := fun _ _ =>
      HttpOutcome.ok { foods := [{fdcId := Val.num 7, description := some "Apple"}] },
    detailOutcomes := fun _ _ =>
      HttpOutcome.ok
        { foodNutrients :=
            [{ nutrient := some {name := some "Energy", unitName := some "kcal"},
               amount := Val.num 52 }] },
    now := 5 }

/-- Witness for `cache_round_trip` in `envRoundTrip` starting from the
empty cache with query `"Apple "`. -/
theorem cache_round_trip_witness :
    ∃ (N : List (String × Val)) (P : Provenance),
      N = extract_nutrients_from_fdc
            { foodNutrients :=
                [{ nutrient := some {name := some "Energy", unitName := some "kcal"},
                   amount := Val.num 52 }] } ∧
      lookup_food_nutrients envRoundTrip [] "Apple " =
        ((some N, P), dset [] (pyStrip (pyLower "Apple ")) ⟨N, P, 5⟩, 2) ∧
      lookup_food_nutrients envRoundTrip
          (dset [] (pyStrip (pyLower "Apple ")) ⟨N, P, 5⟩) "Apple " =
        ((some N, P), dset [] (pyStrip (pyLower "Apple ")) ⟨N, P, 5⟩, 0) :=
  cache_round_trip envRoundTrip [] "Apple "
    { foods := [{fdcId := Val.num 7, description := some "Apple"}] }
    {fdcId := Val.num 7, description := some "Apple"} []
    { foodNutrients :=
        [{ nutrient := some {name := some "Energy", unitName := some "kcal"},
           amount := Val.num 52 }] }
    rfl (by decide) rfl rfl rfl

/-! ## Claim C6 -/

/-- An attempt outcome `_safe_get` retries on: any non-HTTP exception
(timeouts included), or an `HTTPError` whose status is not client-class. -/
def transientOutcome {α : Type} : HttpOutcome α → Bool
  | .ok _ => false
  | .httpErr s => !clientErr s
  | .exc => true

/-- C6 (amended): without credentials `_safe_get` makes no request and
returns nothing, and a cache-missing lookup reports
`(None, {source: "fdc_search_failed"})` — not the string `"disabled"`.  A
client-class (4xx) error on the first attempt terminates immediately:
exactly one request, no retry, no backoff sleep.  When all three attempts
fail transiently, `_safe_get` makes exactly 3 requests with linearly
increasing backoff sleeps of 1, 2 and 3 seconds and returns nothing, and
the lookup reports `(None, {source: "fdc_search_failed"})` — not
`"lookup_failed"`. -/
theorem resolver_failure_semantics :
    (∀ (α : Type) (f : ℕ → HttpOutcome α), safe_get false f = (Option.none, 0, [])) ∧
    (∀ (env : FdcEnv) (cache : List (String × CacheEntry)) (q : String),
      env.hasKey = false → dget cache (pyStrip (pyLower q)) = Option.none →
      lookup_food_nutrients env cache q =
        ((Option.none, {source := "fdc_search_failed"}), cache, 0)) ∧
    (∀ (α : Type) (f : ℕ → HttpOutcome α) (s : Option ℕ),
      clientErr s = true → f 0 = HttpOutcome.httpErr s →
      safe_get true f = (Option.none, 1, [])) ∧
    (∀ (α : Type) (f : ℕ → HttpOutcome α),
      (∀ i, i < 3 → transientOutcome (f i) = true) →
      safe_get true f = (Option.none, 3, [1, 2, 3])) := by
  refine ⟨fun α f => rfl, ?_, ?_, ?_⟩
  · intro env cache q henv hmiss
    simp only [lookup_food_nutrients, hmiss, search_food, safe_get, henv,
      Bool.false_eq_true, if_false]
  · intro α f s hcl hf
    simp only [safe_get, if_true, safeGetGo, hf, hcl, if_true]
  · intro α f h
    have h0 := h 0 (by norm_num)
    have h1 := h 1 (by norm_num)
    have h2 := h 2 (by norm_num)
    cases hf0 : f 0 with
    | ok b => rw [hf0] at h0; exact absurd h0 (by simp [transientOutcome])
    | httpErr s =>
        rw [hf0] at h0
        have hc0 : clientErr s = false := by
          simpa [transientOutcome] using h0
        cases hf1 : f 1 with
        | ok b => rw [hf1] at h1; exact absurd h1 (by simp [transientOutcome])
        | httpErr s1 =>
            rw [hf1] at h1
            have hc1 : clientErr s1 = false := by
              simpa [transientOutcome] using h1
            cases hf2 : f 2 with
            | ok b => rw [hf2] at h2; exact absurd h2 (by simp [transientOutcome])
            | httpErr s2 =>
                rw [hf2] at h2
                have hc2 : clientErr s2 = false := by
                  simpa [transientOutcome] using h2
                simp [safe_get, safeGetGo, hf0, hf1, hf2, hc0, hc1, hc2]
            | exc => simp [safe_get, safeGetGo, hf0, hf1, hf2, hc0, hc1]
        | exc =>
            cases hf2 : f 2 with
            | ok b => rw [hf2] at h2; exact absurd h2 (by simp [transientOutcome])
            | httpErr s2 =>
                rw [hf2] at h2
                have hc2 : clientErr s2 = false := by
                  simpa [transientOutcome] using h2
                simp [safe_get, safeGetGo, hf0, hf1, hf2, hc0, hc2]
            | exc => simp [safe_get, safeGetGo, hf0, hf1, hf2, hc0]
    | exc =>
        cases hf1 : f 1 with
        | ok b => rw [hf1] at h1; exact absurd h1 (by simp [transientOutcome])
        | httpErr s1 =>
            rw [hf1] at h1
            have hc1 : clientErr s1 = false := by
              simpa [transientOutcome] using h1
            cases hf2 : f 2 with
            | ok b => rw [hf2] at h2; exact absurd h2 (by simp [transientOutcome])
            | httpErr s2 =>
                rw [hf2] at h2
                have hc2 : clientErr s2 = false := by
                  simpa [transientOutcome] using h2
                simp [safe_get, safeGetGo, hf0, hf1, hf2, hc1, hc2]
            | exc => simp [safe_get, safeGetGo, hf0, hf1, hf2, hc1]
        | exc =>
            cases hf2 : f 2 with
            | ok b => rw [hf2] at h2; exact absurd h2 (by simp [transientOutcome])
            | httpErr s2 =>
                rw [hf2] at h2
                have hc2 : clientErr s2 = false := by
                  simpa [transientOutcome] using h2
                simp [safe_get, safeGetGo, hf0, hf1, hf2, hc2]
            | exc => simp [safe_get, safeGetGo, hf0, hf1, hf2]

/-- An environment with `FDC_API_KEY` unset. -/
def envDisabled : FdcEnv :=
  { hasKey := false,
    searchOutcomes := fun _ _ => HttpOutcome.exc,
    detailOutcomes := fun _ _ => HttpOutcome.exc,
    now := 0 }

/-- An environment with credentials where every attempt times out. -/
def envAllFail : FdcEnv :=
  { hasKey := true,
    searchOutcomes := fun _ _ => HttpOutcome.exc,
    detailOutcomes := fun _ _ => HttpOutcome.exc,
    now := 0 }

/-- Witness for `resolver_failure_semantics` at concrete inputs: the
disabled lookup, a 404 first attempt, and three timeouts. -/
theorem resolver_failure_semantics_witness :
    lookup_food_nutrients envDisabled [] "chicken" =
      ((Option.none, {source := "fdc_search_failed"}), [], 0) ∧
    safe_get true (fun _ => (HttpOutcome.httpErr (some 404) : HttpOutcome SearchRes)) =
      (Option.none, 1, []) ∧
    safe_get true (fun _ => (HttpOutcome.exc : HttpOutcome SearchRes)) =
      (Option.none, 3, [1, 2, 3]) :=
  ⟨resolver_failure_semantics.2.1 envDisabled [] "chicken" rfl (by decide),
   resolver_failure_semantics.2.2.1 SearchRes _ (some 404) (by decide) rfl,
   resolver_failure_semantics.2.2.2 SearchRes _ (fun i _ => rfl)⟩

/-- Counterexample to C6 as stated: the code never produces the
provenance strings `"disabled"` or `"lookup_failed"`.  With credentials
absent the lookup reports `{source: "fdc_search_failed"}` (after zero
requests), and with retries exhausted it also reports
`{source: "fdc_search_failed"}` (after 3 requests). -/
theorem resolver_provenance_counterexample :
    lookup_food_nutrients envDisabled [] "chicken" =
      ((Option.none, {source := "fdc_search_failed"}), [], 0) ∧
    "fdc_search_failed" ≠ "disabled" ∧
    lookup_food_nutrients envAllFail [] "chicken" =
      ((Option.none, {source := "fdc_search_failed"}), [], 3) ∧
    "fdc_search_failed" ≠ "lookup_failed" := by
  refine ⟨rfl, by decide, rfl, by decide⟩

end FoodAnalysis
